import Mathlib

/-!
Shallow embedding of the RustUnixEmulator shell (src/main.rs) and proofs
about its session loop, line editor, transcript buffer and command
dispatcher.  Pure string formatting is translated directly; the ambient
filesystem and environment (std::fs, std::env, dirs::home_dir) are
modelled by an explicit `World` state, and terminal colorization
(crossterm `.with(Color)..to_string()`) is elided, as the spec places
colorization out of scope.
-/

/-- The double-quote character, used by the touch content sanitizer. -/
def quoteChar : Char := '"'

/-- Whitespace test for a character, modelling Rust char::is_whitespace
as used by str::split_whitespace and str::trim. -/
def isWsChar (c : Char) : Bool := c.isWhitespace

/-- Models command_buffer.trim().is_empty() (main.rs line 74): a string
trims to empty exactly when every character is whitespace. -/
def isBlank (s : String) : Bool := s.data.all isWsChar

/-- Accumulator-based splitter over characters: skips whitespace runs and
collects maximal non-whitespace runs, in order. -/
def splitWsAux : List Char → List Char → List (List Char)
  | [], acc => if acc.isEmpty then [] else [acc.reverse]
  | c :: rest, acc =>
    if isWsChar c then
      if acc.isEmpty then splitWsAux rest [] else acc.reverse :: splitWsAux rest []
    else splitWsAux rest (c :: acc)

/-- Models str::split_whitespace (main.rs line 98): the list of maximal
non-whitespace tokens of the command line, in order. -/
def tokenize (s : String) : List String :=
  (splitWsAux s.data []).map (fun l => ⟨l⟩)

/-- One line-editor operation: a printable-character key (KeyCode::Char)
or a backspace key (KeyCode::Backspace), main.rs lines 66-72. -/
inductive EditOp where
  | ins : Char → EditOp
  | del : EditOp
deriving DecidableEq

/-- Effect of one key on the command buffer (main.rs lines 67-71):
KeyCode::Char pushes the character at the end, KeyCode::Backspace pops
the last character; String::pop on an empty buffer is a no-op. -/
def applyEdit (buf : List Char) : EditOp → List Char
  | .ins c => buf ++ [c]
  | .del => buf.dropLast

/-- Buffer reached from buf after a sequence of editor operations. -/
def runEdits (buf : List Char) : List EditOp → List Char
  | [] => buf
  | op :: ops => runEdits (applyEdit buf op) ops

/-- Number of insert operations in a sequence. -/
def numInserts : List EditOp → Nat
  | [] => 0
  | .ins _ :: ops => numInserts ops + 1
  | .del :: ops => numInserts ops

/-- Number of delete operations that actually remove a character when the
sequence is run from buf (deletes on an empty buffer are no-ops and are
not counted). -/
def numEffDeletes : List Char → List EditOp → Nat
  | _, [] => 0
  | buf, .ins c :: ops => numEffDeletes (buf ++ [c]) ops
  | buf, .del :: ops =>
    if buf.isEmpty then numEffDeletes buf ops
    else numEffDeletes buf.dropLast ops + 1

theorem runEdits_length (ops : List EditOp) : ∀ buf : List Char,
    (runEdits buf ops).length + numEffDeletes buf ops
      = buf.length + numInserts ops := by
  induction ops with
  | nil => intro buf; simp [runEdits, numEffDeletes, numInserts]
  | cons op ops ih =>
    intro buf
    cases op with
    | ins c =>
      simp only [runEdits, applyEdit, numEffDeletes, numInserts]
      have h := ih (buf ++ [c])
      simp only [List.length_append, List.length_singleton] at h
      omega
    | del =>
      simp only [runEdits, applyEdit, numEffDeletes, numInserts]
      by_cases hb : buf.isEmpty
      · have hbe : buf = [] := List.isEmpty_iff.mp hb
        subst hbe
        simpa [List.dropLast] using ih []
      · rw [if_neg hb]
        have h := ih buf.dropLast
        have hlen : buf.dropLast.length = buf.length - 1 := List.length_dropLast buf
        have hpos : 0 < buf.length := by
          cases buf with
          | nil => simp [List.isEmpty] at hb
          | cons a t => simp
        omega

/-- C6: for every sequence of insert and delete_last operations run from
an empty buffer, the buffer length equals the number of inserts minus
the number of non-no-op deletes (stated additively over Nat: length plus
effective deletes equals inserts, and effective deletes never exceed
inserts, so the length never goes negative); delete_last on an empty
buffer is a no-op, not an error. -/
theorem line_editor_length_invariant (ops : List EditOp) :
    (runEdits [] ops).length + numEffDeletes [] ops = numInserts ops ∧
    numEffDeletes [] ops ≤ numInserts ops ∧
    applyEdit [] EditOp.del = [] := by
  have h := runEdits_length ops []
  simp only [List.length_nil, Nat.zero_add] at h
  exact ⟨h, by omega, rfl⟩

/-- Ambient state the emulator's collaborators act on: the process
working directory, a flat view of the files reachable from it (name
paired with content, in directory-enumeration order) and the directory
names that exist as chdir/mkdir targets.  This models std::fs, std::env
and the OS, which are external to the repository. -/
structure World where
  cwd : String
  files : List (String × String)
  dirs : List String
deriving DecidableEq

/-- Directory enumeration as fs::read_dir would yield it for the current
directory: one entry name per file and per directory, some = a readable
entry (an Err entry from read_dir would be none). -/
def World.readDirEntries (w : World) : List (Option String) :=
  w.files.map (fun p => some p.1) ++ w.dirs.map some

/-- Replaces (or creates) the content bound to name, modelling the effect
of File::create, which truncates an existing file before writing. -/
def setFile (fs : List (String × String)) (name content : String) :
    List (String × String) :=
  (name, content) :: fs.filter (fun p => p.1 != name)

/-- Models trim_matches of the double-quote character (main.rs line 205):
removes every leading and every trailing double quote. -/
def trim_matches_quote (s : String) : String :=
  ⟨((s.data.dropWhile (fun c => c == quoteChar)).reverse.dropWhile
      (fun c => c == quoteChar)).reverse⟩

/-- Net file content produced by create_file (main.rs lines 207-213):
File::create leaves an empty file, then writeln! appends the sanitized
content plus a newline only when the sanitized content is non-empty. -/
def writtenContent (content : String) : String :=
  let sanitized := trim_matches_quote content
  if sanitized = "" then "" else sanitized ++ "\n"

/-- list_directory (main.rs lines 162-178), over the outcome of
fs::read_dir for the current directory: keeps the readable entries
(filter_map over ok), sorts the names ascending and joins them with
newlines; an Err from read_dir is formatted as an error string. -/
def list_directory (rd : Except String (List (Option String))) : String :=
  match rd with
  | Except.ok entries =>
      String.intercalate "\n"
        ((entries.filterMap id).insertionSort (fun a b => a ≤ b))
  | Except.error e => "Error: " ++ e

/-- current_directory (main.rs lines 180-186), over the outcome of
env::current_dir. -/
def current_directory (r : Except String String) : String :=
  match r with
  | Except.ok path => path
  | Except.error e => "Error: " ++ e

/-- read_file (main.rs lines 188-197); the OS error description for a
missing file is modelled by a fixed text, faithful to the spec's
"underlying system error description embedded in the result". -/
def read_file (file_name : String) (w : World) : String :=
  if file_name = "" then "Error: File name is required."
  else
    match w.files.lookup file_name with
    | some content => content
    | none => "Error reading file '" ++ file_name ++ "': No such file or directory"

/-- create_file (main.rs lines 199-218): empty-name check, quote
sanitization, File::create (truncating) then optional writeln!.  The
model takes the success path of File::create, as in the claims. -/
def create_file (file_name content : String) (w : World) : String × World :=
  if file_name = "" then ("Error: File name is required.", w)
  else
    ("File '" ++ file_name ++ "' created.",
     { w with files := setFile w.files file_name (writtenContent content) })

/-- create_directory (main.rs lines 220-229). -/
def create_directory (dir_name : String) (w : World) : String × World :=
  if dir_name = "" then ("Error: Directory name is required.", w)
  else if w.dirs.contains dir_name then
    ("Error creating directory '" ++ dir_name ++ "': File exists", w)
  else
    ("Directory '" ++ dir_name ++ "' created.", { w with dirs := w.dirs ++ [dir_name] })

/-- delete_file (main.rs lines 231-240). -/
def delete_file (file_name : String) (w : World) : String × World :=
  if file_name = "" then ("Error: File name is required.", w)
  else
    match w.files.lookup file_name with
    | some _ =>
      ("File '" ++ file_name ++ "' deleted.",
       { w with files := w.files.filter (fun p => p.1 != file_name) })
    | none => ("Error deleting file '" ++ file_name ++ "': No such file or directory", w)

/-- remove_directory (main.rs lines 242-251). -/
def remove_directory (dir_name : String) (w : World) : String × World :=
  if dir_name = "" then ("Error: Directory name is required.", w)
  else if w.dirs.contains dir_name then
    ("Directory '" ++ dir_name ++ "' removed.",
     { w with dirs := w.dirs.filter (fun d => d != dir_name) })
  else ("Error removing directory '" ++ dir_name ++ "': No such file or directory", w)

/-- change_directory (main.rs lines 253-262): env::set_current_dir
succeeds exactly when the target directory exists, leaving the working
directory unchanged on failure (POSIX chdir semantics). -/
def change_directory (dir_name : String) (w : World) : String × World :=
  if dir_name = "" then ("Error: Directory name is required.", w)
  else if w.dirs.contains dir_name then
    ("Changed directory to '" ++ dir_name ++ "'.", { w with cwd := dir_name })
  else
    ("Error changing directory to '" ++ dir_name ++ "': No such file or directory", w)

/-- echo_command (main.rs lines 264-267). -/
def echo_command (args : List String) : String := String.intercalate " " args

/-- Result of one dispatch: the returned response string, the (possibly
cleared) transcript, the world after any filesystem effect, and whether
the process terminated (the exit branch calls std::process::exit). -/
structure HandleOut where
  response : String
  lines : List String
  world : World
  exited : Bool
deriving DecidableEq

/-- Command dispatch over the already-split token list (main.rs lines
97-146): cmd is the first token (empty if none, matching
parts.next().unwrap_or("")), the remaining tokens are the arguments, and
the branch structure mirrors the source match arm for arm.  The clear
branch models the success path of clear_screen, which empties
output_lines and returns an empty response. -/
def dispatchParts (parts : List String) (output_lines : List String) (w : World) :
    HandleOut :=
  let cmd := parts.headD ""
  let args := parts.tail
  if cmd = "ls" then ⟨list_directory (Except.ok w.readDirEntries), output_lines, w, false⟩
  else if cmd = "pwd" then ⟨current_directory (Except.ok w.cwd), output_lines, w, false⟩
  else if cmd = "cat" then ⟨read_file (args.headD "") w, output_lines, w, false⟩
  else if cmd = "echo" then ⟨echo_command args, output_lines, w, false⟩
  else if cmd = "touch" then
    let r := create_file (args.headD "") (String.intercalate " " args.tail) w
    ⟨r.1, output_lines, r.2, false⟩
  else if cmd = "clear" then ⟨"", [], w, false⟩
  else if cmd = "mkdir" then
    let r := create_directory (args.headD "") w
    ⟨r.1, output_lines, r.2, false⟩
  else if cmd = "rm" then
    let r := delete_file (args.headD "") w
    ⟨r.1, output_lines, r.2, false⟩
  else if cmd = "rmdir" then
    let r := remove_directory (args.headD "") w
    ⟨r.1, output_lines, r.2, false⟩
  else if cmd = "cd" then
    let r := change_directory (args.headD "") w
    ⟨r.1, output_lines, r.2, false⟩
  else if cmd = "exit" then ⟨"", output_lines, w, true⟩
  else ⟨"Unknown command: " ++ cmd, output_lines, w, false⟩

/-- handle_command (main.rs line 97): splits the raw line on whitespace
and dispatches. -/
def handle_command (command : String) (output_lines : List String) (w : World) :
    HandleOut :=
  dispatchParts (tokenize command) output_lines w

/-- MAX_OUTPUT_LINES (main.rs line 29). -/
def MAX_OUTPUT_LINES : Nat := 20

/-- The rendered live prompt line (main.rs line 59):
format!("> {} {}", current_dir, command_buffer). -/
def promptLine (current_dir command_buffer : String) : String :=
  "> " ++ current_dir ++ " " ++ command_buffer

/-- Session state after one loop iteration that consumed an Enter key. -/
structure StepOut where
  world : World
  lines : List String
  buffer : String
  exited : Bool
deriving DecidableEq

/-- The KeyCode::Enter arm of the session loop (main.rs lines 73-83):
a blank (trimmed-empty) buffer is ignored entirely; otherwise the
command is dispatched, then a single oldest entry is popped when the
transcript length already reached MAX_OUTPUT_LINES, then the echoed
prompt line and the response are both pushed and the buffer is cleared.
current_dir is the snapshot taken during the render that preceded the
key event (main.rs line 50), so it is the working directory from before
the dispatch. -/
def enterStep (w : World) (lines : List String) (buffer : String) : StepOut :=
  if isBlank buffer then ⟨w, lines, buffer, false⟩
  else
    let current_dir := w.cwd
    let h := handle_command buffer lines w
    if h.exited then ⟨h.world, h.lines, buffer, true⟩
    else
      let lines2 := if MAX_OUTPUT_LINES ≤ h.lines.length then h.lines.tail else h.lines
      ⟨h.world, lines2 ++ [promptLine current_dir buffer, h.response], "", false⟩

/-- Runs the session over a sequence of submitted command lines: each
line is typed into the buffer and Enter is pressed; the run stops if the
process exits. -/
def submitList : World → List String → List String → World × List String
  | w, lines, [] => (w, lines)
  | w, lines, c :: cs =>
    let r := enterStep w lines c
    if r.exited then (r.world, r.lines) else submitList r.world r.lines cs

/-- A starting world: home directory as working directory, no files, no
subdirectories. -/
def w0 : World := ⟨"/home/user", [], []⟩

/-- A world in which the file notes.txt already exists with content. -/
def w1 : World := ⟨"/home/user", [("notes.txt", "old\n")], []⟩

/-- C1: the transcript cap is not enforced by the code.  The session
loop pops at most one entry per submitted command (a single pop_front
guarded by len >= MAX_OUTPUT_LINES) but then pushes two entries, so from
an empty transcript the length reaches 21 after 11 submissions and 35
after 25, exceeding MAX_OUTPUT_LINES = 20; the claimed invariant (length
never exceeds 20, and 25 commands leave exactly the 20 most recent
entries) fails. -/
theorem transcript_cap_exceeded_bug :
    (submitList w0 [] (List.replicate 11 "pwd")).2.length = 21 ∧
    (submitList w0 [] (List.replicate 25 "pwd")).2.length = 35 ∧
    MAX_OUTPUT_LINES = 20 := by
  refine ⟨by decide, by decide, rfl⟩

/-- C2: after submitting clear, the transcript is not empty.  The clear
branch of handle_command does empty output_lines, but the session loop
then unconditionally pushes the echoed command line and the (empty)
response, leaving exactly two entries. -/
theorem clear_appends_entries_bug :
    (enterStep w0 ["a", "b"] "clear").lines = ["> /home/user clear", ""] ∧
    (enterStep w0 ["a", "b"] "clear").lines ≠ [] := by
  refine ⟨by decide, by decide⟩

/-- C5: each command that requires a filename or dirname argument (cat,
touch, mkdir, rm, rmdir, cd), submitted with no argument, yields its
missing-argument error string; the world and transcript are unchanged
for every world (so the empty path never reaches the filesystem layer)
and the session does not terminate. -/
theorem missing_argument_errors (w : World) (lines : List String) :
    handle_command "cat" lines w = ⟨"Error: File name is required.", lines, w, false⟩ ∧
    handle_command "touch" lines w = ⟨"Error: File name is required.", lines, w, false⟩ ∧
    handle_command "mkdir" lines w = ⟨"Error: Directory name is required.", lines, w, false⟩ ∧
    handle_command "rm" lines w = ⟨"Error: File name is required.", lines, w, false⟩ ∧
    handle_command "rmdir" lines w = ⟨"Error: Directory name is required.", lines, w, false⟩ ∧
    handle_command "cd" lines w = ⟨"Error: Directory name is required.", lines, w, false⟩ :=
  ⟨rfl, rfl, rfl, rfl, rfl, rfl⟩

/-- C7: pressing Enter on a buffer that trims to empty changes nothing:
the world, the transcript and the buffer are all left as they were,
dispatch is never reached, and the session continues. -/
theorem blank_submission_no_change (w : World) (lines : List String) (buffer : String)
    (h : isBlank buffer = true) :
    enterStep w lines buffer = ⟨w, lines, buffer, false⟩ := by
  simp [enterStep, h]

/-- Witness for C7 at a concrete whitespace-only buffer. -/
theorem blank_submission_no_change_w :
    enterStep w0 ["x"] "  " = ⟨w0, ["x"], "  ", false⟩ :=
  blank_submission_no_change w0 ["x"] "  " (by decide)

/-- set_to_home_directory (main.rs lines 277-285), parameterized by the
environment: home_dir is the outcome of dirs::home_dir, and scd the
outcome of env::set_current_dir on the located home.  Returns the io
Result together with the stderr lines printed. -/
def set_to_home_directory (home_dir : Option String)
    (scd : String → Except String Unit) : Except String Unit × List String :=
  match home_dir with
  | some h =>
    match scd h with
    | Except.ok _ => (Except.ok (), [])
    | Except.error e => (Except.error e, [])
  | none => (Except.ok (), ["Home directory not found."])

/-- The startup preamble of main (main.rs lines 14-19): on an Err from
set_to_home_directory it prints to stderr and returns Ok(()) without
ever entering the interactive loop.  First component: whether the
session starts; second: the stderr lines printed. -/
def startupSessionStarts (home_dir : Option String)
    (scd : String → Except String Unit) : Bool × List String :=
  match set_to_home_directory home_dir scd with
  | (Except.ok _, log) => (true, log)
  | (Except.error e, log) => (false, log ++ ["Failed to set home directory: " ++ e])

/-- C3 counterexample: when the home directory is located but setting
the working directory to it fails, the failure is logged yet the
interactive session does not start — main returns before entering the
loop — contradicting the claim that such a failure is non-fatal. -/
theorem set_home_failure_fatal_cex :
    startupSessionStarts (some "/home/user") (fun _ => Except.error "Permission denied")
      = (false, ["Failed to set home directory: Permission denied"]) := rfl

/-- C3 amended: failing to locate the home directory is logged and
non-fatal (the session starts); setting it successfully starts the
session with nothing logged; but failing to set a located home directory
is logged and fatal — the session never starts. -/
theorem startup_home_directory_amended (home_dir : Option String)
    (scd : String → Except String Unit) :
    (home_dir = none →
      startupSessionStarts home_dir scd = (true, ["Home directory not found."])) ∧
    (∀ h, home_dir = some h → scd h = Except.ok () →
      startupSessionStarts home_dir scd = (true, [])) ∧
    (∀ h e, home_dir = some h → scd h = Except.error e →
      startupSessionStarts home_dir scd =
        (false, ["Failed to set home directory: " ++ e])) := by
  refine ⟨fun hn => ?_, fun h hs hok => ?_, fun h e hs herr => ?_⟩
  · subst hn; rfl
  · subst hs; simp [startupSessionStarts, set_to_home_directory, hok]
  · subst hs; simp [startupSessionStarts, set_to_home_directory, herr]

/-- Witness for the amended C3 at concrete environments. -/
theorem startup_home_directory_amended_w :
    startupSessionStarts (some "/h") (fun _ => Except.error "x")
      = (false, ["Failed to set home directory: x"]) :=
  (startup_home_directory_amended (some "/h")
    (fun _ => Except.error "x")).2.2 "/h" "x" rfl rfl

/-- C10: running touch on a name that already exists replaces the old
content with the newly given (sanitized) content — File::create
truncates — and still reports the created-success message.  The new
content does not depend on the old content. -/
theorem touch_existing_truncates (w : World) (name oldContent content : String)
    (h1 : name ≠ "") (_h2 : w.files.lookup name = some oldContent) :
    (create_file name content w).1 = "File '" ++ name ++ "' created." ∧
    (create_file name content w).2.files.lookup name = some (writtenContent content) := by
  rw [create_file, if_neg h1]
  refine ⟨rfl, ?_⟩
  simp [setFile, List.lookup]

/-- Witness for C10: notes.txt exists with old content; touch rewrites
it and reports creation. -/
theorem touch_existing_truncates_w :
    (create_file "notes.txt" "hello" w1).1 = "File 'notes.txt' created." ∧
    (create_file "notes.txt" "hello" w1).2.files.lookup "notes.txt" = some "hello\n" :=
  touch_existing_truncates w1 "notes.txt" "old\n" "hello" (by decide) (by decide)

/-- C8: submitting cd to a directory that does not exist leaves the
world (in particular the working directory) unchanged, appends the error
result to the transcript, and the prompt rendered on the next cycle
still shows the prior directory. -/
theorem cd_nonexistent_unchanged (w : World) (lines : List String) (cmdline name : String)
    (hb : isBlank cmdline = false)
    (hs : tokenize cmdline = ["cd", name])
    (hn : name ≠ "")
    (hd : w.dirs.contains name = false) :
    (enterStep w lines cmdline).world = w ∧
    (enterStep w lines cmdline).world.cwd = w.cwd ∧
    (enterStep w lines cmdline).lines =
      (if MAX_OUTPUT_LINES ≤ lines.length then lines.tail else lines) ++
        [promptLine w.cwd cmdline,
         "Error changing directory to '" ++ name ++ "': No such file or directory"] ∧
    promptLine (enterStep w lines cmdline).world.cwd (enterStep w lines cmdline).buffer
      = "> " ++ w.cwd ++ " " := by
  have hcd : change_directory name w =
      ("Error changing directory to '" ++ name ++ "': No such file or directory", w) := by
    rw [change_directory, if_neg hn, hd]
    simp
  have hh : handle_command cmdline lines w =
      ⟨"Error changing directory to '" ++ name ++ "': No such file or directory",
       lines, w, false⟩ := by
    rw [handle_command, hs]
    show (⟨(change_directory name w).1, lines, (change_directory name w).2, false⟩ :
        HandleOut) = _
    rw [hcd]
  have hstep : enterStep w lines cmdline =
      ⟨w, (if MAX_OUTPUT_LINES ≤ lines.length then lines.tail else lines) ++
            [promptLine w.cwd cmdline,
             "Error changing directory to '" ++ name ++ "': No such file or directory"],
        "", false⟩ := by
    rw [enterStep, if_neg (by simp [hb])]
    simp [hh]
  rw [hstep]
  refine ⟨rfl, rfl, rfl, ?_⟩
  simp [promptLine]

/-- Helper: the head of a dropWhile result never satisfies the dropped
predicate. -/
lemma head?_dropWhile_false {p : Char → Bool} {l : List Char} {x : Char}
    (h : (l.dropWhile p).head? = some x) : p x = false := by
  have hw := List.head?_dropWhile_not p l
  rw [h] at hw
  exact hw

/-- Helper: every string splits as leading quotes, its trim_matches
image, then trailing quotes, and the trim_matches image neither starts
nor ends with a quote. -/
lemma trimChars_decomp (l : List Char) :
    (∃ k m, l = List.replicate k quoteChar
        ++ ((l.dropWhile (fun c => c == quoteChar)).reverse.dropWhile
              (fun c => c == quoteChar)).reverse
        ++ List.replicate m quoteChar) ∧
    (∀ c, (((l.dropWhile (fun c => c == quoteChar)).reverse.dropWhile
              (fun c => c == quoteChar)).reverse).head? = some c → c ≠ quoteChar) ∧
    (∀ c, (((l.dropWhile (fun c => c == quoteChar)).reverse.dropWhile
              (fun c => c == quoteChar)).reverse).getLast? = some c → c ≠ quoteChar) := by
  set q : Char → Bool := fun c => c == quoteChar with hq
  set l1 := l.dropWhile q with hl1
  set r := l1.reverse.dropWhile q with hr
  have hsplit1 : l.takeWhile q ++ l1 = l := List.takeWhile_append_dropWhile q l
  have hrep1 : l.takeWhile q = List.replicate (l.takeWhile q).length quoteChar :=
    List.eq_replicate_of_mem (fun b hb => by
      have := List.mem_takeWhile_imp hb
      simpa [hq, beq_iff_eq] using this)
  have hsplit2 : l1.reverse.takeWhile q ++ r = l1.reverse :=
    List.takeWhile_append_dropWhile q l1.reverse
  have hrep2 : l1.reverse.takeWhile q
      = List.replicate (l1.reverse.takeWhile q).length quoteChar :=
    List.eq_replicate_of_mem (fun b hb => by
      have := List.mem_takeWhile_imp hb
      simpa [hq, beq_iff_eq] using this)
  have hl1eq : l1 = r.reverse ++ List.replicate (l1.reverse.takeWhile q).length quoteChar := by
    have h3 := congrArg List.reverse hsplit2
    rw [List.reverse_append, List.reverse_reverse, hrep2, List.reverse_replicate] at h3
    exact h3.symm
  refine ⟨⟨(l.takeWhile q).length, (l1.reverse.takeWhile q).length, ?_⟩, ?_, ?_⟩
  · calc l = l.takeWhile q ++ l1 := hsplit1.symm
      _ = List.replicate (l.takeWhile q).length quoteChar
            ++ (r.reverse ++ List.replicate (l1.reverse.takeWhile q).length quoteChar) := by
          rw [← hrep1, ← hl1eq]
      _ = List.replicate (l.takeWhile q).length quoteChar ++ r.reverse
            ++ List.replicate (l1.reverse.takeWhile q).length quoteChar := by
          rw [List.append_assoc]
  · intro c hc
    have hne : r.reverse ≠ [] := by
      intro hnil
      rw [hnil] at hc
      simp at hc
    have hhead : l1.head? = some c := by
      rw [hl1eq]
      cases hrv : r.reverse with
      | nil => exact absurd hrv hne
      | cons a t =>
        rw [hrv] at hc
        simp at hc
        subst hc
        simp [hrv]
    have := head?_dropWhile_false (p := q) (l := l) (by rw [← hl1]; exact hhead)
    simpa [hq, beq_iff_eq] using this
  · intro c hc
    rw [List.getLast?_reverse] at hc
    have := head?_dropWhile_false (p := q) (l := l1.reverse) (by rw [← hr]; exact hc)
    simpa [hq, beq_iff_eq] using this

/-- Modelled from the spec: the single-layer quote stripping the claim
describes — remove exactly one double quote at the very start and one at
the very end of the content, never more. -/
def stripOneLayerQuote (s : String) : String :=
  let l := s.data
  let l1 := if l.head? = some quoteChar then l.tail else l
  ⟨if l1.getLast? = some quoteChar then l1.dropLast else l1⟩

/-- C4 counterexample: on the joined content consisting of a doubly
quoted token, the code strips every leading and trailing quote (Rust
trim_matches), writing content that differs from what a single layer of
quote-stripping would produce. -/
theorem touch_one_layer_strip_cex :
    trim_matches_quote "\"\"a\"\"" = "a" ∧
    stripOneLayerQuote "\"\"a\"\"" = "\"a\"" ∧
    (create_file "f" "\"\"a\"\"" w0).2.files.lookup "f" = some "a\n" ∧
    ("a\n" : String) ≠ "\"a\"" ++ "\n" := by
  refine ⟨by decide, by decide, by decide, by decide⟩

/-- C4 amended: for touch, the first argument is the target file name
and the remaining arguments are joined with single spaces as the initial
content; ALL leading and trailing double-quote characters of the joined
content are stripped before writing (Rust trim_matches semantics, not a
single layer), and non-empty written content receives a trailing
newline. -/
theorem touch_quote_strip_amended (w : World) (lines : List String)
    (cmdline name : String) (toks : List String)
    (hs : tokenize cmdline = "touch" :: name :: toks)
    (hn : name ≠ "") :
    handle_command cmdline lines w =
      ⟨"File '" ++ name ++ "' created.", lines,
       ⟨w.cwd, setFile w.files name (writtenContent (String.intercalate " " toks)),
        w.dirs⟩, false⟩ ∧
    (∃ k m, (String.intercalate " " toks).data =
        List.replicate k quoteChar
          ++ (trim_matches_quote (String.intercalate " " toks)).data
          ++ List.replicate m quoteChar) ∧
    (∀ c, (trim_matches_quote (String.intercalate " " toks)).data.head? = some c →
        c ≠ quoteChar) ∧
    (∀ c, (trim_matches_quote (String.intercalate " " toks)).data.getLast? = some c →
        c ≠ quoteChar) ∧
    (trim_matches_quote (String.intercalate " " toks) ≠ "" →
      writtenContent (String.intercalate " " toks)
        = trim_matches_quote (String.intercalate " " toks) ++ "\n") := by
  have hdec := trimChars_decomp (String.intercalate " " toks).data
  refine ⟨?_, hdec.1, hdec.2.1, hdec.2.2, fun hne => ?_⟩
  · rw [handle_command, hs]
    show (⟨(create_file name (String.intercalate " " toks) w).1, lines,
          (create_file name (String.intercalate " " toks) w).2, false⟩ : HandleOut) = _
    rw [create_file, if_neg hn]
  · rw [writtenContent]
    simp only [if_neg hne]

/-- Witness for the amended C4 on a concrete quoted content. -/
theorem touch_quote_strip_amended_w :
    handle_command "touch f \"hi\"" [] w0 =
      ⟨"File '" ++ "f" ++ "' created.", [],
       ⟨w0.cwd, setFile w0.files "f" (writtenContent (String.intercalate " " ["\"hi\""])),
        w0.dirs⟩, false⟩ ∧
    (∃ k m, (String.intercalate " " ["\"hi\""]).data =
        List.replicate k quoteChar
          ++ (trim_matches_quote (String.intercalate " " ["\"hi\""])).data
          ++ List.replicate m quoteChar) ∧
    (∀ c, (trim_matches_quote (String.intercalate " " ["\"hi\""])).data.head? = some c →
        c ≠ quoteChar) ∧
    (∀ c, (trim_matches_quote (String.intercalate " " ["\"hi\""])).data.getLast? = some c →
        c ≠ quoteChar) ∧
    (trim_matches_quote (String.intercalate " " ["\"hi\""]) ≠ "" →
      writtenContent (String.intercalate " " ["\"hi\""])
        = trim_matches_quote (String.intercalate " " ["\"hi\""]) ++ "\n") :=
  touch_quote_strip_amended w0 [] "touch f \"hi\"" "f" ["\"hi\""] (by decide) (by decide)

/-- C9: a successful ls yields the readable entry names sorted ascending
and joined by newlines, and the output is invariant under permutation of
the enumeration order. -/
theorem ls_sorted_deterministic (entries entries' : List (Option String))
    (h : entries.Perm entries') :
    list_directory (Except.ok entries) = list_directory (Except.ok entries') ∧
    List.Sorted (fun a b => a ≤ b)
      ((entries.filterMap id).insertionSort (fun a b => a ≤ b)) ∧
    ((entries.filterMap id).insertionSort (fun a b => a ≤ b)).Perm
      (entries.filterMap id) ∧
    list_directory (Except.ok entries) =
      String.intercalate "\n"
        ((entries.filterMap id).insertionSort (fun a b => a ≤ b)) := by
  refine ⟨?_, List.sorted_insertionSort _ _, List.perm_insertionSort _ _, rfl⟩
  have hp : (entries.filterMap id).Perm (entries'.filterMap id) := h.filterMap id
  have h1 := List.perm_insertionSort (fun a b : String => a ≤ b) (entries.filterMap id)
  have h2 := List.perm_insertionSort (fun a b : String => a ≤ b) (entries'.filterMap id)
  have heq : (entries.filterMap id).insertionSort (fun a b => a ≤ b)
      = (entries'.filterMap id).insertionSort (fun a b => a ≤ b) :=
    List.eq_of_perm_of_sorted (h1.trans (hp.trans h2.symm))
      (List.sorted_insertionSort _ _) (List.sorted_insertionSort _ _)
  simp only [list_directory, heq]

/-- Witness for C9 on two concrete enumerations of the same directory. -/
theorem ls_sorted_deterministic_w :
    list_directory (Except.ok [some "b", none, some "a"])
      = list_directory (Except.ok [some "a", some "b", none]) ∧
    List.Sorted (fun a b => a ≤ b)
      ((([some "b", none, some "a"] : List (Option String)).filterMap id).insertionSort
        (fun a b => a ≤ b)) ∧
    ((([some "b", none, some "a"] : List (Option String)).filterMap id).insertionSort
        (fun a b => a ≤ b)).Perm
      (([some "b", none, some "a"] : List (Option String)).filterMap id) ∧
    list_directory (Except.ok [some "b", none, some "a"]) =
      String.intercalate "\n"
        ((([some "b", none, some "a"] : List (Option String)).filterMap id).insertionSort
          (fun a b => a ≤ b)) :=
  ls_sorted_deterministic [some "b", none, some "a"] [some "a", some "b", none]
    (by decide)

/-- Witness for C8 at a concrete world with no subdirectories. -/
theorem cd_nonexistent_unchanged_w :
    (enterStep w0 [] "cd nope").world = w0 ∧
    (enterStep w0 [] "cd nope").world.cwd = w0.cwd ∧
    (enterStep w0 [] "cd nope").lines =
      (if MAX_OUTPUT_LINES ≤ ([] : List String).length then ([] : List String).tail
       else []) ++
        [promptLine w0.cwd "cd nope",
         "Error changing directory to '" ++ "nope" ++ "': No such file or directory"] ∧
    promptLine (enterStep w0 [] "cd nope").world.cwd (enterStep w0 [] "cd nope").buffer
      = "> " ++ w0.cwd ++ " " :=
  cd_nonexistent_unchanged w0 [] "cd nope" "nope" (by decide) (by decide) (by decide)
    (by decide)

